import Mathlib

/-!
Verification of the customer-bill computation engine of `billsify-backend`.

The definitions below are a shallow embedding of the JavaScript source:
* `models/CustomerBill.js` — the `pre('save')` middleware (bill-number
  allocation, line-item normalization, aggregation, final invariant checks)
  and the `getBillBreakdown` instance method;
* `routes/affiliate.js` — the `POST /bills` handler's item validation loop,
  item processing, and additional-discount validation.

JavaScript numbers that carry currency values are modelled as `ℚ`.
A raw (caller-supplied) JSON value that may be absent or non-numeric is
modelled by `RawVal`; a document field that `parseFloat` may turn into `NaN`
is modelled as `Option ℚ` with `none` standing for `NaN`/`undefined`.
External I/O (the Mongo lookup used by the bill-number allocator) is passed
in as an explicit parameter: the list `db` of already-persisted bill numbers.
-/

namespace Billsify

/-- A raw JSON value as seen by the route handler before `parseFloat`:
absent (`missing`), present but non-numeric (`nan` after `parseFloat`),
or a number. -/
inductive RawVal where
  | missing
  | nan
  | num (q : ℚ)
deriving DecidableEq

/-- Model of `parseFloat(x)` on a raw value, with `NaN` represented as `none`
(`parseFloat(undefined)` is also `NaN`). -/
def parseNum : RawVal → Option ℚ
  | .num q => some q
  | _ => none

/-- Model of `parseFloat(x || 0)`: an absent (falsy) value is replaced by `0` before
parsing; a present non-numeric value still parses to `NaN`. -/
def parseOr0 : RawVal → Option ℚ
  | .missing => some 0
  | .nan => none
  | .num q => some q

/-- Model of `parseFloat(x) || 0` as a total coercion: non-numeric input becomes `0`.
This is the coercion the spec describes as "non-numeric inputs are coerced
to 0". -/
def coerceVal : RawVal → ℚ
  | .missing => 0
  | .nan => 0
  | .num q => q

/-- Model of `parseFloat(x) || 0` on a document field (`none` = `undefined`/`NaN`). -/
def coerceNum (x : Option ℚ) : ℚ := x.getD 0

/-- A line item of a `CustomerBill` document (schema fields relevant to the
computation engine). `none` models an absent or non-numeric value. -/
structure Item where
  itemName : String
  quantity : Option ℚ
  unitPrice : Option ℚ
  discount : Option ℚ
  totalPrice : Option ℚ
deriving DecidableEq

/-- A `CustomerBill` document (fields relevant to the computation engine).
`billNumber = ""` models the identifier being unset (falsy in JS). -/
structure Bill where
  billNumber : String
  items : List Item
  subtotal : Option ℚ
  discountAmount : Option ℚ
  totalItemDiscounts : Option ℚ
  totalAmount : Option ℚ
deriving DecidableEq

/-! ### Bill-number allocation (CustomerBill.js lines 154-185)

JavaScript string primitives are modelled on the character list
(`String.data`), which coincides with JS code-unit semantics on the ASCII
strings involved here. -/

/-- JavaScript `String.prototype.padStart(n, c)`. -/
def padStart (s : String) (n : Nat) (c : Char) : String :=
  if n ≤ s.length then s else String.mk (List.replicate (n - s.length) c) ++ s

/-- JavaScript `<` on strings (also MongoDB's string sort order):
lexicographic comparison by code unit. -/
def lexLt : List Char → List Char → Bool
  | [], [] => false
  | [], _ :: _ => true
  | _ :: _, [] => false
  | a :: as, b :: bs =>
    if a.toNat < b.toNat then true
    else if b.toNat < a.toNat then false
    else lexLt as bs

/-- JavaScript `String.prototype.slice(-n)`: the last `n` characters (the
whole string when it is shorter). -/
def sliceLast (s : String) (n : Nat) : String :=
  String.mk (s.data.drop (s.data.length - n))

/-- The value of a list of decimal digit characters. -/
def digitsToNat (l : List Char) : Nat :=
  l.foldl (fun acc c => 10 * acc + (c.toNat - 48)) 0

/-- JavaScript `parseInt` restricted to the strings that occur here:
parse the leading run of decimal digits, `NaN` (= `none`) if there is none. -/
def jsParseInt (s : String) : Option Nat :=
  let ds := s.data.takeWhile Char.isDigit
  if ds.isEmpty then none else some (digitsToNat ds)

/-- JavaScript `String.prototype.trim()`. -/
def jsTrim (s : String) : String :=
  String.mk (((s.data.dropWhile Char.isWhitespace).reverse.dropWhile
    Char.isWhitespace).reverse)

/-- The `YYYYMMDD` date string built at lines 157-160. `month0` is the
JavaScript 0-based month (`Date.prototype.getMonth()`). -/
def dateStrOf (year month0 day : Nat) : String :=
  Nat.repr year ++ padStart (Nat.repr (month0 + 1)) 2 '0' ++ padStart (Nat.repr day) 2 '0'

/-- The template literal for a bill number: `BILL` + date string + 4-digit
zero-padded sequence (line 176). -/
def mkBillNo (dateStr : String) (seq : Nat) : String :=
  "BILL" ++ dateStr ++ padStart (Nat.repr seq) 4 '0'

/-- The Mongo lookup
`findOne({billNumber: ^BILL<dateStr>}).sort({billNumber: -1})`:
the lexicographically greatest stored bill number with prefix
`"BILL" ++ dateStr`, over the list `db` of stored bill numbers. -/
def lastBillFor (dateStr : String) (db : List String) : Option String :=
  (db.filter (fun s => ("BILL" ++ dateStr).data.isPrefixOf s.data)).foldl
    (fun acc s =>
      match acc with
      | none => some s
      | some t => if lexLt t.data s.data then some s else some t)
    none

/-- Bill-number generation, lines 162-177: take the last bill of the day,
parse its final 4 characters, and use that sequence plus one (1 if there is
no such bill or its suffix does not parse). -/
def generateBillNumber (dateStr : String) (db : List String) : String :=
  let seq :=
    match lastBillFor dateStr db with
    | some bn =>
      match jsParseInt (sliceLast bn 4) with
      | some n => n + 1
      | none => 1
    | none => 1
  mkBillNo dateStr seq

/-- Fallback bill number (lines 179-184) used when the lookup throws:
`r` stands for the draw `Math.floor(Math.random() * 10000)`. -/
def fallbackBillNumber (dateStr : String) (r : Nat) : String :=
  "BILL" ++ dateStr ++ padStart (Nat.repr r) 4 '0'

/-! ### Pre-save normalization (CustomerBill.js lines 187-266) -/

/-- The error message produced at line 216. -/
def invalidItemMsg : String :=
  "Invalid item data: quantity must be > 0 and unitPrice must be >= 0"

/-- The validation condition at line 214, applied to the coerced values of
lines 210-211: `quantity <= 0 || unitPrice < 0`. -/
def itemInvalid (it : Item) : Bool :=
  decide (coerceNum it.quantity ≤ 0) || decide (coerceNum it.unitPrice < 0)

/-- The gross amount `itemGross = quantity * unitPrice` (line 219), on
coerced values. -/
def itemGross (it : Item) : ℚ :=
  coerceNum it.quantity * coerceNum it.unitPrice

/-- The net amount `netAmount = Math.max(0, itemGross - itemDiscount)`
(line 220). -/
def itemNet (it : Item) : ℚ :=
  max 0 (itemGross it - coerceNum it.discount)

/-- The `this.items.forEach` loop of lines 201-234. Returns the item list
after in-place mutation, the accumulated `itemSubtotal`, the accumulated
`totalItemDiscounts`, and the first error signalled via `next(err)` (`none`
if no item failed validation). An invalid item makes the callback return
early — its `totalPrice` is left untouched and its gross and discount are
not accumulated — but iteration over the remaining items continues. -/
def processItems : List Item → List Item × ℚ × ℚ × Option String
  | [] => ([], 0, 0, none)
  | it :: rest =>
    let r := processItems rest
    if itemInvalid it then
      (it :: r.1, r.2.1, r.2.2.1, some invalidItemMsg)
    else
      ({ it with totalPrice := some (itemNet it) } :: r.1,
       itemGross it + r.2.1,
       coerceNum it.discount + r.2.2.1,
       r.2.2.2)

/-- Lines 154-185: assign a bill number only for a new document with no
identifier yet (`this.isNew && !this.billNumber`). -/
def assignBillNumber (isNew : Bool) (dateStr : String) (db : List String) (b : Bill) : Bill :=
  if isNew ∧ b.billNumber = "" then
    { b with billNumber := generateBillNumber dateStr db }
  else b

/-- The whole `pre('save')` middleware (lines 149-272), as a function from
the in-memory document to the mutated document together with the error the
hook reports (`none` = the hook calls `next()` successfully). When an item
error was signalled inside the `forEach`, that first `next(err)` wins, but
the code after the loop still runs and still writes `subtotal`,
`totalItemDiscounts`, `discountAmount` and `totalAmount` onto the document. -/
def preSave (isNew : Bool) (dateStr : String) (db : List String) (b : Bill) :
    Bill × Option String :=
  let b1 := assignBillNumber isNew dateStr db b
  if b1.items.isEmpty then
    (b1, some "At least one item is required for bill creation")
  else
    let r := processItems b1.items
    let sub := r.2.1
    let discTot := r.2.2.1
    let addDisc := coerceNum b1.discountAmount
    let total := max 0 (sub - discTot - addDisc)
    let b2 := { b1 with
      items := r.1
      subtotal := some sub
      totalItemDiscounts := some discTot
      discountAmount := some addDisc
      totalAmount := some total }
    let finalErr :=
      if b2.billNumber = "" then some "Bill number generation failed"
      else if sub < 0 then some "Invalid subtotal calculated"
      else if total < 0 then some "Invalid total amount calculated"
      else none
    (b2, r.2.2.2.orElse (fun _ => finalErr))

/-! ### Route-level validation and item processing (affiliate.js lines 248-363)

The `POST /bills` handler's customer-field validation and inventory checks
are external collaborators per the spec and are not modelled; the modelled
fragment is the per-item validation loop, the item processing `map`, and
the additional-discount validation, i.e. everything the engine's contract
at the route boundary depends on. -/

/-- A raw line item as received by the route handler. `itemName = ""` models
an absent or empty name (falsy in JS). -/
structure RawItem where
  itemName : String
  quantity : RawVal
  unitPrice : RawVal
  discount : RawVal
deriving DecidableEq

/-- Error message at line 254. -/
def nameMsg (i : Nat) : String :=
  "Item " ++ Nat.repr (i + 1) ++ ": Item name is required"

/-- Error message at line 264. -/
def qtyMsg (i : Nat) : String :=
  "Item " ++ Nat.repr (i + 1) ++ ": Quantity must be greater than 0"

/-- Error message at line 270. -/
def priceMsg (i : Nat) : String :=
  "Item " ++ Nat.repr (i + 1) ++ ": Unit price cannot be negative"

/-- Error message at line 276. -/
def discMsg (i : Nat) : String :=
  "Item " ++ Nat.repr (i + 1) ++ ": Discount cannot be negative"

/-- The checks applied to the item at 0-based index `i` by the validation
loop at lines 249-279 (name, then quantity, unit price, discount, each
rejecting on `NaN` or the out-of-range sign). -/
def validateItem (i : Nat) (it : RawItem) : Option String :=
  if jsTrim it.itemName = "" then some (nameMsg i)
  else
    match parseNum it.quantity with
    | none => some (qtyMsg i)
    | some q =>
      if q ≤ 0 then some (qtyMsg i)
      else
        match parseNum it.unitPrice with
        | none => some (priceMsg i)
        | some p =>
          if p < 0 then some (priceMsg i)
          else
            match parseOr0 it.discount with
            | none => some (discMsg i)
            | some d => if d < 0 then some (discMsg i) else none

/-- The validation loop starting at index `i`: the first failing item's
error is returned (the handler `return`s a 400 response at once). -/
def validateItemsFrom : Nat → List RawItem → Option String
  | _, [] => none
  | i, it :: rest =>
    match validateItem i it with
    | some e => some e
    | none => validateItemsFrom (i + 1) rest

/-- The whole validation loop of lines 249-279. -/
def validateItems (items : List RawItem) : Option String :=
  validateItemsFrom 0 items

/-- The `items.map` at lines 316-341 building `processedItems`: parse the
numeric fields, derive `totalPrice = Math.max(0, gross - discount)`
(`none` models the `NaN` that arises if a field failed to parse). -/
def processRouteItem (it : RawItem) : Item :=
  let q := parseNum it.quantity
  let p := parseNum it.unitPrice
  let d := parseOr0 it.discount
  let gross := Option.map₂ (· * ·) q p
  { itemName := jsTrim it.itemName
    quantity := q
    unitPrice := p
    discount := d
    totalPrice := Option.map₂ (fun g dd => max 0 (g - dd)) gross d }

/-- Lines 344-349: `parseFloat(discountAmount || 0)` then rejection when
the result `isNaN` or is negative (`none` = the 400 response). -/
def routeDiscount (raw : RawVal) : Option ℚ :=
  match parseOr0 raw with
  | none => none
  | some x => if x < 0 then none else some x

/-- The billing-relevant skeleton of the `POST /bills` handler: empty-items
check (line 234), item validation loop, item processing, discount
validation, and construction of the `CustomerBill` document that is then
`save`d (which runs `preSave`). `Except.error` models the 400 response:
no document is created. -/
def handleCreateBill (items : List RawItem) (rawDiscount : RawVal) : Except String Bill :=
  if items.isEmpty then .error "At least one item is required"
  else
    match validateItems items with
    | some e => .error e
    | none =>
      match routeDiscount rawDiscount with
      | none => .error "Additional discount cannot be negative"
      | some d =>
        .ok
          { billNumber := ""
            items := items.map processRouteItem
            subtotal := none
            discountAmount := some d
            totalItemDiscounts := none
            totalAmount := none }

/-! ### Breakdown reporter (CustomerBill.js lines 292-310) -/

/-- One entry of `breakdown.items`. `grossAmount` is `Option ℚ` because
`item.quantity * item.unitPrice` is `NaN` when a factor is not a number. -/
structure BreakdownItem where
  name : String
  quantity : Option ℚ
  unitPrice : Option ℚ
  grossAmount : Option ℚ
  itemDiscount : ℚ
  netAmount : Option ℚ
deriving DecidableEq

/-- The object returned by `getBillBreakdown`. -/
structure Breakdown where
  items : List BreakdownItem
  subtotal : Option ℚ
  totalItemDiscounts : Option ℚ
  additionalDiscount : ℚ
  totalDiscounts : Option ℚ
  finalTotal : Option ℚ
deriving DecidableEq

/-- The method `getBillBreakdown` (lines 292-310): a pure projection of the
document.
`gross` is re-derived as `quantity * unitPrice`; `net` is the stored
`totalPrice`; `totalDiscounts = totalItemDiscounts + (discountAmount || 0)`
(`none`-propagation models `undefined + x = NaN`). -/
def getBillBreakdown (b : Bill) : Breakdown :=
  { items := b.items.map (fun it =>
      { name := it.itemName
        quantity := it.quantity
        unitPrice := it.unitPrice
        grossAmount := Option.map₂ (· * ·) it.quantity it.unitPrice
        itemDiscount := it.discount.getD 0
        netAmount := it.totalPrice })
    subtotal := b.subtotal
    totalItemDiscounts := b.totalItemDiscounts
    additionalDiscount := b.discountAmount.getD 0
    totalDiscounts := b.totalItemDiscounts.map (· + b.discountAmount.getD 0)
    finalTotal := b.totalAmount }

/-! ### Closed forms of the pre-save pass (derived, for the theorems) -/

/-- How the `forEach` leaves one item: a valid item has its `totalPrice`
overwritten with the recomputed net amount, an invalid one is untouched. -/
def normItem (it : Item) : Item :=
  if itemInvalid it then it else { it with totalPrice := some (itemNet it) }

/-- The items whose gross and discount reach the accumulators. -/
def validItems (l : List Item) : List Item :=
  l.filter (fun it => !itemInvalid it)

/-- The accumulated `itemSubtotal`: the grosses of the valid items. -/
def subtotalOf (l : List Item) : ℚ :=
  ((validItems l).map itemGross).sum

/-- The accumulated `totalItemDiscounts`: the discounts of the valid items. -/
def itemDiscountsOf (l : List Item) : ℚ :=
  ((validItems l).map (fun it => coerceNum it.discount)).sum

/-! ### Concrete inputs used by the witnesses -/

/-- The aggregation example: items `[{qty 2, price 10, disc 0}, {qty 1,
price 5, disc 1}]` with `additionalDiscount = 2`. -/
def exampleBillAgg : Bill :=
  { billNumber := ""
    items := [
      { itemName := "a", quantity := some 2, unitPrice := some 10,
        discount := some 0, totalPrice := none },
      { itemName := "b", quantity := some 1, unitPrice := some 5,
        discount := some 1, totalPrice := none }]
    subtotal := none
    discountAmount := some 2
    totalItemDiscounts := none
    totalAmount := none }

/-- The clamping example item: `{qty 2, price 10, disc 100}` with a bogus
caller-supplied `totalPrice`. -/
def exampleClampItem : Item :=
  { itemName := "c", quantity := some 2, unitPrice := some 10,
    discount := some 100, totalPrice := some 777 }

/-- The clamping example: a single item `{qty 2, price 10, disc 100}`. -/
def exampleBillClamp : Bill :=
  { billNumber := ""
    items := [exampleClampItem]
    subtotal := none
    discountAmount := some 0
    totalItemDiscounts := none
    totalAmount := none }

/-- An invalid item: `quantity = 0`. -/
def exampleBadItem : Item :=
  { itemName := "z", quantity := some 0, unitPrice := some 3,
    discount := some 1, totalPrice := some 55 }

/-- A valid item `{qty 1, price 5, disc 1}`. -/
def exampleTailItem : Item :=
  { itemName := "b", quantity := some 1, unitPrice := some 5,
    discount := some 1, totalPrice := none }

/-- A bill with an invalid second item (`quantity = 0`) between two valid
items. -/
def exampleBillMixed : Bill :=
  { billNumber := ""
    items := [
      { itemName := "a", quantity := some 2, unitPrice := some 10,
        discount := some 0, totalPrice := none },
      exampleBadItem,
      exampleTailItem]
    subtotal := none
    discountAmount := some 2
    totalItemDiscounts := none
    totalAmount := none }

/-- A raw item that passes the route validation: `{qty 1, price 2, disc 0}`. -/
def exGoodRaw : RawItem :=
  { itemName := "ok", quantity := .num 1, unitPrice := .num 2, discount := .num 0 }

/-- A raw item with `quantity = 0`, rejected by the route validation. -/
def exBadRaw : RawItem :=
  { itemName := "bad", quantity := .num 0, unitPrice := .num 3, discount := .missing }

/-- A persisted, already-normalized bill used by the breakdown witness. -/
def exampleStoredBill : Bill :=
  { billNumber := "BILL202506150001"
    items := [
      { itemName := "a", quantity := some 2, unitPrice := some 10,
        discount := some 1, totalPrice := some 19 }]
    subtotal := some 20
    discountAmount := some 2
    totalItemDiscounts := some 1
    totalAmount := some 17 }

/-! ### Lemmas: closed forms of the forEach loop -/

theorem processItems_items (l : List Item) : (processItems l).1 = l.map normItem := by
  induction l with
  | nil => rfl
  | cons it rest ih =>
    cases h : itemInvalid it <;> simp [processItems, normItem, h, ih]

theorem processItems_sub (l : List Item) : (processItems l).2.1 = subtotalOf l := by
  induction l with
  | nil => rfl
  | cons it rest ih =>
    cases h : itemInvalid it <;>
      simp [processItems, subtotalOf, validItems, List.filter_cons, h, ih]

theorem processItems_disc (l : List Item) : (processItems l).2.2.1 = itemDiscountsOf l := by
  induction l with
  | nil => rfl
  | cons it rest ih =>
    cases h : itemInvalid it <;>
      simp [processItems, itemDiscountsOf, validItems, List.filter_cons, h, ih]

theorem processItems_err (l : List Item) :
    (processItems l).2.2.2 =
      if l.all (fun it => !itemInvalid it) then none else some invalidItemMsg := by
  induction l with
  | nil => rfl
  | cons it rest ih =>
    cases h : itemInvalid it <;> simp [processItems, h, ih]

theorem assignBillNumber_items (isNew : Bool) (ds : String) (db : List String) (b : Bill) :
    (assignBillNumber isNew ds db b).items = b.items := by
  unfold assignBillNumber; split <;> rfl

theorem assignBillNumber_discountAmount (isNew : Bool) (ds : String) (db : List String)
    (b : Bill) : (assignBillNumber isNew ds db b).discountAmount = b.discountAmount := by
  unfold assignBillNumber; split <;> rfl

theorem assignBillNumber_subtotal (isNew : Bool) (ds : String) (db : List String)
    (b : Bill) : (assignBillNumber isNew ds db b).subtotal = b.subtotal := by
  unfold assignBillNumber; split <;> rfl

theorem assignBillNumber_totalItemDiscounts (isNew : Bool) (ds : String) (db : List String)
    (b : Bill) : (assignBillNumber isNew ds db b).totalItemDiscounts = b.totalItemDiscounts := by
  unfold assignBillNumber; split <;> rfl

theorem assignBillNumber_totalAmount (isNew : Bool) (ds : String) (db : List String)
    (b : Bill) : (assignBillNumber isNew ds db b).totalAmount = b.totalAmount := by
  unfold assignBillNumber; split <;> rfl

/-- Full characterization of the pre-save pass on a bill with at least one
item: derived fields are recomputed, valid items' `totalPrice` is
overwritten, and the reported error is the first item error when one
occurred, the final-validation error otherwise. -/
theorem preSave_eq (isNew : Bool) (ds : String) (db : List String) (b : Bill)
    (h : b.items ≠ []) :
    preSave isNew ds db b =
      ({ billNumber := (assignBillNumber isNew ds db b).billNumber
         items := b.items.map normItem
         subtotal := some (subtotalOf b.items)
         discountAmount := some (coerceNum b.discountAmount)
         totalItemDiscounts := some (itemDiscountsOf b.items)
         totalAmount := some (max 0
           (subtotalOf b.items - itemDiscountsOf b.items - coerceNum b.discountAmount)) },
       (if b.items.all (fun it => !itemInvalid it) then none else some invalidItemMsg).orElse
         (fun _ =>
           if (assignBillNumber isNew ds db b).billNumber = "" then
             some "Bill number generation failed"
           else if subtotalOf b.items < 0 then some "Invalid subtotal calculated"
           else if max 0 (subtotalOf b.items - itemDiscountsOf b.items -
               coerceNum b.discountAmount) < 0 then
             some "Invalid total amount calculated"
           else none)) := by
  simp only [preSave]
  rw [assignBillNumber_items, assignBillNumber_discountAmount]
  rw [if_neg (by simpa [List.isEmpty_iff] using h)]
  rw [processItems_items, processItems_sub, processItems_disc, processItems_err]

/-- The pre-save pass reports no error when the items list is non-empty and
all items are valid, the bill number ended up non-empty, and the subtotal is
non-negative. -/
theorem preSave_success (isNew : Bool) (ds : String) (db : List String) (b : Bill)
    (hne : b.items ≠ [])
    (hall : ∀ it ∈ b.items, itemInvalid it = false)
    (hbn : (assignBillNumber isNew ds db b).billNumber ≠ "")
    (hsub : 0 ≤ subtotalOf b.items) :
    (preSave isNew ds db b).2 = none := by
  rw [preSave_eq isNew ds db b hne]
  have h1 : b.items.all (fun it => !itemInvalid it) = true := by
    rw [List.all_eq_true]
    intro it hit
    simp [hall it hit]
  simp [h1, Option.orElse, hbn, not_lt.mpr hsub, not_lt.mpr (le_max_left 0
    (subtotalOf b.items - itemDiscountsOf b.items - coerceNum b.discountAmount))]

/-- If the items strictly before index `k` pass the route validation loop
and the item at `k` fails with message `e`, the loop's result is `e`. -/
theorem validateItemsFrom_reaches (items : List RawItem) :
    ∀ (i k : Nat) (it : RawItem) (e : String), items[k]? = some it →
      (∀ (j : Nat) (jt : RawItem), j < k → items[j]? = some jt →
        validateItem (i + j) jt = none) →
      validateItem (i + k) it = some e →
      validateItemsFrom i items = some e := by
  induction items with
  | nil =>
    intro i k it e hk
    simp at hk
  | cons a rest ih =>
    intro i k it e hk hprev he
    cases k with
    | zero =>
      simp only [List.getElem?_cons_zero, Option.some_inj] at hk
      subst hk
      rw [Nat.add_zero] at he
      simp [validateItemsFrom, he]
    | succ k' =>
      have ha : validateItem i a = none := by
        have h0 := hprev 0 a (Nat.succ_pos k') (by simp)
        simpa using h0
      rw [List.getElem?_cons_succ] at hk
      simp only [validateItemsFrom, ha]
      refine ih (i + 1) k' it e hk ?_ ?_
      · intro j jt hj hja
        have hp := hprev (j + 1) jt (Nat.succ_lt_succ hj) (by simpa using hja)
        have harr : i + (j + 1) = i + 1 + j := by omega
        rwa [harr] at hp
      · have harr : i + (k' + 1) = i + 1 + k' := by omega
        rwa [harr] at he

/-- A discount value accepted by the route's discount validation is
non-negative. -/
theorem routeDiscount_nonneg (raw : RawVal) (d : ℚ)
    (h : routeDiscount raw = some d) : 0 ≤ d := by
  cases raw with
  | missing =>
    simp only [routeDiscount, parseOr0] at h
    split at h
    · cases h
    · cases h
      norm_num
  | nan => simp [routeDiscount, parseOr0] at h
  | num q =>
    simp only [routeDiscount, parseOr0] at h
    split at h
    · cases h
    · rename_i hq
      cases h
      exact not_lt.mp hq

/-! ### Claims -/

/-- Claim C4: normalizing a bill whose items list is empty fails with the
`EmptyBillError`-class error ("At least one item is required for bill
creation") and produces no record: the pre-save hook reports the error, the
save is rejected, and none of the derived totals is written onto the
document. -/
theorem claim_C4 (isNew : Bool) (ds : String) (db : List String) (b : Bill)
    (h : b.items = []) :
    (preSave isNew ds db b).2 = some "At least one item is required for bill creation" ∧
    (preSave isNew ds db b).1.subtotal = b.subtotal ∧
    (preSave isNew ds db b).1.totalItemDiscounts = b.totalItemDiscounts ∧
    (preSave isNew ds db b).1.discountAmount = b.discountAmount ∧
    (preSave isNew ds db b).1.totalAmount = b.totalAmount := by
  have hi : (assignBillNumber isNew ds db b).items = b.items := assignBillNumber_items ..
  have hp : preSave isNew ds db b =
      (assignBillNumber isNew ds db b,
       some "At least one item is required for bill creation") := by
    simp only [preSave, hi, h]
    rfl
  rw [hp]
  exact ⟨rfl, assignBillNumber_subtotal .., assignBillNumber_totalItemDiscounts ..,
    assignBillNumber_discountAmount .., assignBillNumber_totalAmount ..⟩

theorem claim_C4_witness :
    ({ billNumber := "", items := [], subtotal := none, discountAmount := some 5,
       totalItemDiscounts := none, totalAmount := none } : Bill).items = [] ∧
    (preSave true "20250615" []
      { billNumber := "", items := [], subtotal := none, discountAmount := some 5,
        totalItemDiscounts := none, totalAmount := none }).2 =
      some "At least one item is required for bill creation" ∧
    (preSave true "20250615" []
      { billNumber := "", items := [], subtotal := none, discountAmount := some 5,
        totalItemDiscounts := none, totalAmount := none }).1.totalAmount = none :=
  ⟨rfl,
   (claim_C4 true "20250615" []
     { billNumber := "", items := [], subtotal := none, discountAmount := some 5,
       totalItemDiscounts := none, totalAmount := none } rfl).1,
   (claim_C4 true "20250615" []
     { billNumber := "", items := [], subtotal := none, discountAmount := some 5,
       totalItemDiscounts := none, totalAmount := none } rfl).2.2.2.2⟩

/-- Claim C7: a bill that already has a bill number keeps it across any
further normalization/save pass: the allocator only runs when the document
has no identifier yet, so re-saving (for example after changing the items)
never overwrites an existing `billNumber`. -/
theorem claim_C7 (isNew : Bool) (ds : String) (db : List String) (b : Bill)
    (h : b.billNumber ≠ "") :
    (preSave isNew ds db b).1.billNumber = b.billNumber := by
  have hb : assignBillNumber isNew ds db b = b := by
    unfold assignBillNumber
    rw [if_neg (fun hc => h hc.2)]
  simp only [preSave, hb]
  split <;> rfl

theorem claim_C7_witness :
    ("BILL202001010007" : String) ≠ "" ∧
    (preSave false "20250615" ["BILL202506150001"]
      { billNumber := "BILL202001010007"
        items := [{ itemName := "x", quantity := some 3, unitPrice := some 4,
                    discount := some 1, totalPrice := some 11 }]
        subtotal := some 12, discountAmount := some 0,
        totalItemDiscounts := some 1, totalAmount := some 11 }).1.billNumber =
      "BILL202001010007" :=
  ⟨by decide,
   claim_C7 false "20250615" ["BILL202506150001"]
     { billNumber := "BILL202001010007"
       items := [{ itemName := "x", quantity := some 3, unitPrice := some 4,
                   discount := some 1, totalPrice := some 11 }]
       subtotal := some 12, discountAmount := some 0,
       totalItemDiscounts := some 1, totalAmount := some 11 } (by decide)⟩

/-- Claim C2: for every bill with a non-empty item list whose items all pass
validation, the aggregator sets `subtotal` to the sum over all items of
`quantity * unitPrice`, `totalItemDiscounts` to the sum of the item
discounts, and `totalAmount` to
`max 0 (subtotal - totalItemDiscounts - additionalDiscount)`. -/
theorem claim_C2 (isNew : Bool) (ds : String) (db : List String) (b : Bill)
    (hne : b.items ≠ [])
    (hval : ∀ it ∈ b.items, itemInvalid it = false) :
    (preSave isNew ds db b).1.subtotal = some ((b.items.map itemGross).sum) ∧
    (preSave isNew ds db b).1.totalItemDiscounts =
      some ((b.items.map (fun it => coerceNum it.discount)).sum) ∧
    (preSave isNew ds db b).1.totalAmount =
      some (max 0 ((b.items.map itemGross).sum -
        (b.items.map (fun it => coerceNum it.discount)).sum -
        coerceNum b.discountAmount)) := by
  have hv : validItems b.items = b.items := by
    unfold validItems
    exact List.filter_eq_self.mpr (fun a ha => by simp [hval a ha])
  rw [preSave_eq isNew ds db b hne]
  exact ⟨by simp [subtotalOf, hv], by simp [itemDiscountsOf, hv],
    by simp [subtotalOf, itemDiscountsOf, hv]⟩

theorem claim_C2_witness :
    exampleBillAgg.items ≠ [] ∧
    (∀ it ∈ exampleBillAgg.items, itemInvalid it = false) ∧
    (preSave true "20250615" [] exampleBillAgg).1.subtotal = some 25 ∧
    (preSave true "20250615" [] exampleBillAgg).1.totalItemDiscounts = some 1 ∧
    (preSave true "20250615" [] exampleBillAgg).1.totalAmount = some 22 := by
  have h := claim_C2 true "20250615" [] exampleBillAgg (by decide)
    (by simp [exampleBillAgg, itemInvalid, coerceNum])
  refine ⟨by decide, by simp [exampleBillAgg, itemInvalid, coerceNum], ?_, ?_, ?_⟩
  · rw [h.1]
    simp [exampleBillAgg, itemGross, coerceNum]
    norm_num
  · rw [h.2.1]
    simp [exampleBillAgg, coerceNum]
  · rw [h.2.2]
    simp [exampleBillAgg, itemGross, coerceNum]
    norm_num

/-- Claim C3: for valid input (every item with coerced `quantity > 0`,
`unitPrice ≥ 0`, `discount ≥ 0`, and `additionalDiscount ≥ 0`), every
computed item net amount and the computed grand total are non-negative,
even when discounts exceed the gross amounts. -/
theorem claim_C3 (isNew : Bool) (ds : String) (db : List String) (b : Bill)
    (hne : b.items ≠ [])
    (hval : ∀ it ∈ b.items, 0 < coerceNum it.quantity ∧ 0 ≤ coerceNum it.unitPrice ∧
      0 ≤ coerceNum it.discount)
    (hdisc : 0 ≤ coerceNum b.discountAmount) :
    (∀ it ∈ (preSave isNew ds db b).1.items, ∃ t, it.totalPrice = some t ∧ 0 ≤ t) ∧
    (∃ tot, (preSave isNew ds db b).1.totalAmount = some tot ∧ 0 ≤ tot) := by
  rw [preSave_eq isNew ds db b hne]
  constructor
  · intro it' hmem
    simp only [List.mem_map] at hmem
    obtain ⟨it, hit, rfl⟩ := hmem
    have hinv : itemInvalid it = false := by
      simp only [itemInvalid, Bool.or_eq_false_iff, decide_eq_false_iff_not, not_le, not_lt]
      exact ⟨(hval it hit).1, (hval it hit).2.1⟩
    exact ⟨itemNet it, by simp [normItem, hinv], le_max_left 0 _⟩
  · exact ⟨_, rfl, le_max_left 0 _⟩

theorem claim_C3_witness :
    exampleBillClamp.items ≠ [] ∧
    (∀ it ∈ exampleBillClamp.items, 0 < coerceNum it.quantity ∧
      0 ≤ coerceNum it.unitPrice ∧ 0 ≤ coerceNum it.discount) ∧
    0 ≤ coerceNum exampleBillClamp.discountAmount ∧
    (∀ it ∈ (preSave true "20250615" [] exampleBillClamp).1.items,
      ∃ t, it.totalPrice = some t ∧ 0 ≤ t) ∧
    itemGross exampleClampItem = 20 ∧
    itemNet exampleClampItem = 0 := by
  have hval : ∀ it ∈ exampleBillClamp.items, 0 < coerceNum it.quantity ∧
      0 ≤ coerceNum it.unitPrice ∧ 0 ≤ coerceNum it.discount := by
    norm_num [exampleBillClamp, exampleClampItem, coerceNum]
  have h := claim_C3 true "20250615" [] exampleBillClamp (by decide) hval
    (by simp [exampleBillClamp, coerceNum])
  refine ⟨by decide, hval, by simp [exampleBillClamp, coerceNum], h.1, ?_, ?_⟩
  · simp [exampleClampItem, itemGross, coerceNum]
    norm_num
  · simp [exampleClampItem, itemNet, itemGross, coerceNum]
    norm_num

/-- Claim C1: whenever the normalization pass succeeds, every line item's
stored `totalPrice` (the spec's `netAmount`) equals
`max 0 (quantity * unitPrice - discount)` computed from the coerced inputs;
the caller-supplied `totalPrice` is overwritten and never enters the stored
value. -/
theorem claim_C1 (isNew : Bool) (ds : String) (db : List String) (b : Bill)
    (k : Nat) (hk : k < b.items.length)
    (hok : (preSave isNew ds db b).2 = none) :
    ∃ it, b.items[k]? = some it ∧
      (preSave isNew ds db b).1.items[k]? =
        some { it with totalPrice := some (max 0
          (coerceNum it.quantity * coerceNum it.unitPrice - coerceNum it.discount)) } := by
  have hne : b.items ≠ [] := by
    intro h
    rw [h] at hk
    simp at hk
  rw [preSave_eq isNew ds db b hne] at hok ⊢
  have hall : b.items.all (fun it => !itemInvalid it) = true := by
    cases h2 : b.items.all (fun it => !itemInvalid it) with
    | true => rfl
    | false =>
      rw [h2] at hok
      simp [Option.orElse] at hok
  have hinv : itemInvalid b.items[k] = false := by
    have := List.all_eq_true.mp hall _ (List.getElem_mem hk)
    simpa using this
  refine ⟨b.items[k], by simp [List.getElem?_eq_getElem hk], ?_⟩
  rw [List.getElem?_map]
  simp [List.getElem?_eq_getElem hk, normItem, hinv, itemNet, itemGross]

theorem claim_C1_witness :
    0 < exampleBillClamp.items.length ∧
    (preSave true "20250615" [] exampleBillClamp).2 = none ∧
    (∃ it, exampleBillClamp.items[0]? = some it ∧
      (preSave true "20250615" [] exampleBillClamp).1.items[0]? =
        some { it with totalPrice := some (max 0
          (coerceNum it.quantity * coerceNum it.unitPrice - coerceNum it.discount)) }) := by
  have hok : (preSave true "20250615" [] exampleBillClamp).2 = none := by
    refine preSave_success true "20250615" [] exampleBillClamp (by decide) ?_ (by decide) ?_
    · simp [exampleBillClamp, exampleClampItem, itemInvalid, coerceNum]
    · norm_num [exampleBillClamp, exampleClampItem, subtotalOf, validItems, itemInvalid,
        itemGross, coerceNum]
  exact ⟨by decide, hok, claim_C1 true "20250615" [] exampleBillClamp 0 (by decide) hok⟩

/-- Claim C10: when some item fails validation, the pre-save pass does not
stop there: the error is signalled, but the remaining items are still
processed, and `subtotal`, `totalItemDiscounts`, `discountAmount` and
`totalAmount` are still computed — with the invalid item's gross and
discount omitted — and written onto the in-memory document even though the
save is rejected. -/
theorem claim_C10 (isNew : Bool) (ds : String) (db : List String) (b : Bill)
    (k : Nat) (bad : Item)
    (hk : b.items[k]? = some bad) (hbad : itemInvalid bad = true) :
    (preSave isNew ds db b).2 = some invalidItemMsg ∧
    (preSave isNew ds db b).1.subtotal = some (subtotalOf b.items) ∧
    (preSave isNew ds db b).1.totalItemDiscounts = some (itemDiscountsOf b.items) ∧
    (preSave isNew ds db b).1.discountAmount = some (coerceNum b.discountAmount) ∧
    (preSave isNew ds db b).1.totalAmount = some (max 0 (subtotalOf b.items -
      itemDiscountsOf b.items - coerceNum b.discountAmount)) ∧
    ∀ (j : Nat) (jt : Item), b.items[j]? = some jt → itemInvalid jt = false →
      (preSave isNew ds db b).1.items[j]? =
        some { jt with totalPrice := some (itemNet jt) } := by
  have hmem : bad ∈ b.items := by
    have hlt : k < b.items.length := by
      by_contra hge
      rw [List.getElem?_eq_none (le_of_not_lt hge)] at hk
      exact Option.noConfusion hk
    rw [List.getElem?_eq_getElem hlt] at hk
    exact Option.some_injective _ hk ▸ List.getElem_mem hlt
  have hne : b.items ≠ [] := by
    intro h0
    rw [h0] at hmem
    simp at hmem
  have hall : b.items.all (fun it => !itemInvalid it) = false := by
    rw [List.all_eq_false]
    exact ⟨bad, hmem, by simp [hbad]⟩
  rw [preSave_eq isNew ds db b hne]
  refine ⟨by simp [hall, Option.orElse], rfl, rfl, rfl, rfl, ?_⟩
  intro j jt hj hjv
  show (List.map normItem b.items)[j]? = some { jt with totalPrice := some (itemNet jt) }
  rw [List.getElem?_map, hj]
  simp [normItem, hjv]

theorem claim_C10_witness :
    exampleBillMixed.items[1]? = some exampleBadItem ∧
    itemInvalid exampleBadItem = true ∧
    (preSave true "20250615" [] exampleBillMixed).2 = some invalidItemMsg ∧
    (preSave true "20250615" [] exampleBillMixed).1.subtotal = some 25 ∧
    (preSave true "20250615" [] exampleBillMixed).1.totalItemDiscounts = some 1 ∧
    (preSave true "20250615" [] exampleBillMixed).1.totalAmount = some 22 ∧
    (preSave true "20250615" [] exampleBillMixed).1.items[2]? =
      some { exampleTailItem with totalPrice := some 4 } := by
  have hbad : itemInvalid exampleBadItem = true := by
    simp [exampleBadItem, itemInvalid, coerceNum]
  have h := claim_C10 true "20250615" [] exampleBillMixed 1 exampleBadItem
    (by decide) hbad
  refine ⟨by decide, hbad, h.1, ?_, ?_, ?_, ?_⟩
  · rw [h.2.1]
    norm_num [exampleBillMixed, exampleBadItem, exampleTailItem, subtotalOf, validItems,
      itemInvalid, itemGross, coerceNum]
  · rw [h.2.2.1]
    norm_num [exampleBillMixed, exampleBadItem, exampleTailItem, itemDiscountsOf,
      validItems, itemInvalid, coerceNum]
  · rw [h.2.2.2.2.1]
    norm_num [exampleBillMixed, exampleBadItem, exampleTailItem, subtotalOf,
      itemDiscountsOf, validItems, itemInvalid, itemGross, coerceNum]
  · have h2 := h.2.2.2.2.2 2 exampleTailItem (by decide)
      (by simp [exampleTailItem, itemInvalid, coerceNum])
    rw [h2]
    norm_num [exampleTailItem, itemNet, itemGross, coerceNum]

/-! ### Lemmas about decimal digit strings -/

theorem digitChar_isDigit : ∀ m, m < 10 → (Nat.digitChar m).isDigit = true := by decide

theorem toDigitsCore_all_digit (f : Nat) :
    ∀ (n : Nat) (ds : List Char), ds.all Char.isDigit = true →
      (Nat.toDigitsCore 10 f n ds).all Char.isDigit = true := by
  induction f with
  | zero => intro n ds h; simpa [Nat.toDigitsCore] using h
  | succ f ih =>
    intro n ds h
    have hd : ((Nat.digitChar (n % 10)) :: ds).all Char.isDigit = true := by
      simp only [List.all_cons, Bool.and_eq_true]
      exact ⟨digitChar_isDigit _ (Nat.mod_lt _ (by norm_num)), h⟩
    simp only [Nat.toDigitsCore]
    split
    · exact hd
    · exact ih _ _ hd

theorem repr_all_digit (n : Nat) : (Nat.repr n).data.all Char.isDigit = true := by
  simpa [Nat.repr, Nat.toDigits, List.asString] using
    toDigitsCore_all_digit (n + 1) n [] rfl

theorem padStart_length (s : String) (n : Nat) (c : Char) :
    (padStart s n c).length = max n s.length := by
  unfold padStart
  split
  · omega
  · show (List.replicate (n - s.length) c ++ s.data).length = max n s.length
    rw [List.length_append, List.length_replicate]
    have hl : s.length = s.data.length := rfl
    omega

theorem padStart_all_digit (s : String) (n : Nat)
    (h : s.data.all Char.isDigit = true) :
    (padStart s n '0').data.all Char.isDigit = true := by
  unfold padStart
  split
  · exact h
  · show (List.replicate (n - s.length) '0' ++ s.data).all Char.isDigit = true
    rw [List.all_append, Bool.and_eq_true]
    refine ⟨?_, h⟩
    rw [List.all_eq_true]
    intro c hc
    rw [List.eq_of_mem_replicate hc]
    decide

/-! ### Claims C6, C5, C8, C9 -/

/-- Claim C6: on first creation the allocator produces
`"BILL" ++ YYYYMMDD ++ <4-digit zero-padded sequence>`; when the day's
already-stored bills carry the consecutive sequences `1..n` (so the
descending-sort lookup returns the day's bill number `n`, whose 4-character
suffix parses back to `n`), the new sequence is `n + 1`, i.e. the count of
prior bills of that day plus one. In random-fallback mode the produced
identifier still has the `BILL` + date + 4-digit shape for any draw
`r < 10000`. -/
theorem claim_C6 (ds : String) (db : List String) (n : Nat)
    (h1 : lastBillFor ds db = some (mkBillNo ds n))
    (h2 : jsParseInt (sliceLast (mkBillNo ds n) 4) = some n) :
    generateBillNumber ds db = mkBillNo ds (n + 1) ∧
    ∀ r : Nat, r < 10000 →
      ∃ s, fallbackBillNumber ds r = "BILL" ++ ds ++ s ∧ s.length = 4 ∧
        s.data.all Char.isDigit = true := by
  constructor
  · simp only [generateBillNumber, h1, h2]
  · intro r hr
    refine ⟨padStart (Nat.repr r) 4 '0', rfl, ?_, padStart_all_digit _ _ (repr_all_digit r)⟩
    rw [padStart_length]
    have hlen : (Nat.repr r).length ≤ 4 :=
      Nat.repr_length r 4 (by norm_num) (by simpa using hr)
    omega

theorem claim_C6_witness :
    lastBillFor "20250615" ["BILL202506150001", "BILL202506150002"] =
      some (mkBillNo "20250615" 2) ∧
    jsParseInt (sliceLast (mkBillNo "20250615" 2) 4) = some 2 ∧
    dateStrOf 2025 5 15 = "20250615" ∧
    generateBillNumber "20250615" ["BILL202506150001", "BILL202506150002"] =
      "BILL202506150003" ∧
    (∃ s, fallbackBillNumber "20250615" 7 = "BILL" ++ "20250615" ++ s ∧
      s.length = 4 ∧ s.data.all Char.isDigit = true) := by
  have h := claim_C6 "20250615" ["BILL202506150001", "BILL202506150002"] 2
    (by decide) (by decide)
  exact ⟨by decide, by decide, by decide, h.1.trans (by decide), h.2 7 (by decide)⟩

/-- Claim C5: if a line item has coerced `quantity ≤ 0` or coerced
`unitPrice < 0` (with a non-empty name, and the items before it passing
validation), the `POST /bills` handler rejects the whole request with an
error message citing the 1-based index of the offending item, and no bill
document is created — no partial acceptance of the valid items. -/
theorem claim_C5 (items : List RawItem) (rawDiscount : RawVal)
    (k : Nat) (it : RawItem)
    (hk : items[k]? = some it)
    (hname : jsTrim it.itemName ≠ "")
    (hbad : coerceVal it.quantity ≤ 0 ∨ coerceVal it.unitPrice < 0)
    (hprev : ∀ (j : Nat) (jt : RawItem), j < k → items[j]? = some jt →
      validateItem j jt = none) :
    ∃ e rest, handleCreateBill items rawDiscount = Except.error e ∧
      e = ("Item " ++ Nat.repr (k + 1) ++ ":") ++ rest := by
  have hfail : validateItem k it = some (qtyMsg k) ∨
      validateItem k it = some (priceMsg k) := by
    unfold validateItem
    rw [if_neg hname]
    cases hq : it.quantity with
    | missing => exact Or.inl rfl
    | nan => exact Or.inl rfl
    | num q =>
      simp only [parseNum]
      by_cases hq0 : q ≤ 0
      · rw [if_pos hq0]
        exact Or.inl rfl
      · rw [if_neg hq0]
        have hpneg : coerceVal it.unitPrice < 0 := by
          rcases hbad with hb | hb
          · rw [hq] at hb
            simp only [coerceVal] at hb
            exact absurd hb hq0
          · exact hb
        cases hp : it.unitPrice with
        | missing =>
          rw [hp] at hpneg
          simp [coerceVal] at hpneg
        | nan =>
          rw [hp] at hpneg
          simp [coerceVal] at hpneg
        | num p =>
          rw [hp] at hpneg
          simp only [coerceVal] at hpneg
          simp only [parseNum]
          rw [if_pos hpneg]
          exact Or.inr rfl
  have hnemp : items.isEmpty = false := by
    cases items with
    | nil => simp at hk
    | cons a l => rfl
  have hrun : ∀ e, validateItems items = some e →
      handleCreateBill items rawDiscount = Except.error e := by
    intro e hv
    unfold handleCreateBill
    rw [hnemp]
    simp only [Bool.false_eq_true, if_false, hv]
  have hpfx : ∀ msg rest, msg = ":" ++ rest →
      ("Item " ++ Nat.repr (k + 1) ++ msg : String) =
        ("Item " ++ Nat.repr (k + 1) ++ ":") ++ rest := by
    intro msg rest hmsg
    rw [hmsg, ← String.append_assoc]
  rcases hfail with hf | hf
  · refine ⟨qtyMsg k, " Quantity must be greater than 0", ?_, ?_⟩
    · exact hrun _ (validateItemsFrom_reaches items 0 k it _ hk
        (by simpa using hprev) (by simpa using hf))
    · exact hpfx _ _ (by decide)
  · refine ⟨priceMsg k, " Unit price cannot be negative", ?_, ?_⟩
    · exact hrun _ (validateItemsFrom_reaches items 0 k it _ hk
        (by simpa using hprev) (by simpa using hf))
    · exact hpfx _ _ (by decide)

theorem claim_C5_witness :
    ([exGoodRaw, exBadRaw][1]? = some exBadRaw) ∧
    jsTrim exBadRaw.itemName ≠ "" ∧
    coerceVal exBadRaw.quantity ≤ 0 ∧
    (∃ e rest, handleCreateBill [exGoodRaw, exBadRaw] (.num 2) = Except.error e ∧
      e = ("Item " ++ Nat.repr 2 ++ ":") ++ rest) := by
  have hbad : coerceVal exBadRaw.quantity ≤ 0 := by
    norm_num [exBadRaw, coerceVal]
  have hprev : ∀ (j : Nat) (jt : RawItem), j < 1 →
      ([exGoodRaw, exBadRaw] : List RawItem)[j]? = some jt →
      validateItem j jt = none := by
    intro j jt hj hjt
    have hj0 : j = 0 := by omega
    subst hj0
    simp only [List.getElem?_cons_zero, Option.some_inj] at hjt
    subst hjt
    decide
  exact ⟨by decide, by decide, hbad,
    claim_C5 [exGoodRaw, exBadRaw] (.num 2) 1 exBadRaw (by decide) (by decide)
      (Or.inl hbad) hprev⟩

/-- Claim C8: the bill-level `discountAmount` is coerced to `0` by the
pre-save pass when non-numeric, and the route rejects a negative (or
present non-numeric) value, so a bill created through the route always
stores `discountAmount = d ≥ 0`, and that `d` is exactly what enters the
grand-total computation. -/
theorem claim_C8 (items : List RawItem) (rawDiscount : RawVal) (b : Bill)
    (ds : String) (db : List String)
    (h : handleCreateBill items rawDiscount = Except.ok b) :
    (∃ d, routeDiscount rawDiscount = some d ∧ 0 ≤ d ∧ b.discountAmount = some d ∧
      (preSave true ds db b).1.discountAmount = some d ∧
      (preSave true ds db b).1.totalAmount =
        some (max 0 (subtotalOf b.items - itemDiscountsOf b.items - d))) ∧
    (∀ b' : Bill, b'.items ≠ [] → b'.discountAmount = none →
      (preSave true ds db b').1.discountAmount = some 0) := by
  constructor
  · unfold handleCreateBill at h
    cases hemp : items.isEmpty with
    | true =>
      rw [hemp] at h
      simp at h
    | false =>
      rw [hemp] at h
      simp only [Bool.false_eq_true, if_false] at h
      cases hv : validateItems items with
      | some e =>
        rw [hv] at h
        simp at h
      | none =>
        rw [hv] at h
        cases hd : routeDiscount rawDiscount with
        | none =>
          rw [hd] at h
          simp at h
        | some d =>
          rw [hd] at h
          simp only [Except.ok.injEq] at h
          subst h
          have hne : (List.map processRouteItem items) ≠ [] := by
            cases items with
            | nil => simp at hemp
            | cons a l => simp
          refine ⟨d, rfl, routeDiscount_nonneg rawDiscount d hd, rfl, ?_, ?_⟩
          · rw [preSave_eq true ds db _ hne]
            simp [coerceNum]
          · rw [preSave_eq true ds db _ hne]
            simp [coerceNum]
  · intro b' hne' hnone
    rw [preSave_eq true ds db b' hne']
    simp [hnone, coerceNum]

theorem claim_C8_witness :
    (handleCreateBill [exGoodRaw] (.num 3) = Except.ok
      { billNumber := "", items := List.map processRouteItem [exGoodRaw],
        subtotal := none, discountAmount := some 3, totalItemDiscounts := none,
        totalAmount := none }) ∧
    (∃ d, routeDiscount (.num 3) = some d ∧ 0 ≤ d ∧
      ({ billNumber := "", items := List.map processRouteItem [exGoodRaw],
         subtotal := none, discountAmount := some 3, totalItemDiscounts := none,
         totalAmount := none } : Bill).discountAmount = some d ∧
      (preSave true "20250615" []
        { billNumber := "", items := List.map processRouteItem [exGoodRaw],
          subtotal := none, discountAmount := some 3, totalItemDiscounts := none,
          totalAmount := none }).1.discountAmount = some d ∧
      (preSave true "20250615" []
        { billNumber := "", items := List.map processRouteItem [exGoodRaw],
          subtotal := none, discountAmount := some 3, totalItemDiscounts := none,
          totalAmount := none }).1.totalAmount =
        some (max 0 (subtotalOf (List.map processRouteItem [exGoodRaw]) -
          itemDiscountsOf (List.map processRouteItem [exGoodRaw]) - d))) := by
  have hok : handleCreateBill [exGoodRaw] (.num 3) = Except.ok
      { billNumber := "", items := List.map processRouteItem [exGoodRaw],
        subtotal := none, discountAmount := some 3, totalItemDiscounts := none,
        totalAmount := none } := by
    unfold handleCreateBill
    rw [show validateItems [exGoodRaw] = none from by decide]
    rw [show routeDiscount (.num 3) = some 3 from by decide]
    rfl
  exact ⟨hok, (claim_C8 [exGoodRaw] (.num 3) _ "20250615" [] hok).1⟩

/-- Claim C9: the breakdown reporter is a pure projection of a persisted
bill: per item it returns the stored name, quantity and unit price,
re-derives `gross = quantity * unitPrice`, reports the stored discount
(defaulted to 0) and the stored `totalPrice` as net; at bill level it
returns the stored `subtotal`, `totalItemDiscounts`, `additionalDiscount`
and grand total, with `totalDiscounts = totalItemDiscounts +
additionalDiscount`. Being a plain function into a separate `Breakdown`
value, it does not modify the bill record. -/
theorem claim_C9 (b : Bill) (tid ad : ℚ)
    (h1 : b.totalItemDiscounts = some tid) (h2 : b.discountAmount = some ad) :
    (getBillBreakdown b).subtotal = b.subtotal ∧
    (getBillBreakdown b).totalItemDiscounts = some tid ∧
    (getBillBreakdown b).additionalDiscount = ad ∧
    (getBillBreakdown b).totalDiscounts = some (tid + ad) ∧
    (getBillBreakdown b).finalTotal = b.totalAmount ∧
    ∀ (k : Nat) (it : Item), b.items[k]? = some it →
      (getBillBreakdown b).items[k]? = some
        { name := it.itemName, quantity := it.quantity, unitPrice := it.unitPrice,
          grossAmount := Option.map₂ (· * ·) it.quantity it.unitPrice,
          itemDiscount := it.discount.getD 0, netAmount := it.totalPrice } := by
  unfold getBillBreakdown
  refine ⟨rfl, by simp [h1], by simp [h2], by simp [h1, h2], rfl, ?_⟩
  intro k it hk
  rw [List.getElem?_map, hk, Option.map_some']

theorem claim_C9_witness :
    exampleStoredBill.totalItemDiscounts = some 1 ∧
    exampleStoredBill.discountAmount = some 2 ∧
    (getBillBreakdown exampleStoredBill).subtotal = some 20 ∧
    (getBillBreakdown exampleStoredBill).totalDiscounts = some 3 ∧
    (getBillBreakdown exampleStoredBill).finalTotal = some 17 ∧
    (getBillBreakdown exampleStoredBill).items[0]? = some
      { name := "a", quantity := some 2, unitPrice := some 10,
        grossAmount := some 20, itemDiscount := 1, netAmount := some 19 } := by
  have h := claim_C9 exampleStoredBill 1 2 rfl rfl
  refine ⟨rfl, rfl, h.1.trans (by decide), h.2.2.2.1.trans (by norm_num), h.2.2.2.2.1.trans (by decide), ?_⟩
  have hi := h.2.2.2.2.2 0
    { itemName := "a", quantity := some 2, unitPrice := some 10,
      discount := some 1, totalPrice := some 19 } (by decide)
  rw [hi]
  norm_num [Option.map₂]

end Billsify
